import Mathlib

/-!
Shallow embedding of the FutureFit backend (src/backend_logic.py and
src/app.py) and proofs about its specified behaviour.

Modelling conventions:
* Python strings are Lean `String`s; a value that may be absent (missing
  dictionary key) or `None` is an `Option`.
* Every outbound effect (the SerpApi HTTP call, the PDF extraction, the
  pandas CSV read, the Gemini generation calls) is modelled by an explicit
  environment record whose fields hold the outcome of that effect, so the
  Python functions become total Lean functions of the environment.
* A Python function from which an unhandled exception can escape is given
  return type `Except String _`; `.error` models the propagated exception.
* Values read back from a CSV file by `pandas.read_csv` are modelled by
  `CsvField`: an empty cell is read back as the float NaN (`CsvField.nan`),
  which in Python is truthy and is not an instance of `str`; a non-empty
  cell is a string.
-/

/-- Python `s.lower()` (backend_logic.py lines 21 and 25), character by
character; agrees with CPython on the ASCII data handled here. -/
def pyLower (s : String) : String := ⟨s.data.map Char.toLower⟩

/-- Python substring test `needle in hay`: the character sequence of the
needle occurs contiguously inside the haystack. -/
def substrB (needle hay : String) : Bool := decide (needle.toList <:+: hay.toList)

/-- Characters removed by Python `str.strip()` (the ones occurring in this
code base's data). -/
def isPySpace (c : Char) : Bool := c == ' ' || c == '\t' || c == '\n' || c == '\r'

/-- Python `str.strip()`: drop leading and trailing whitespace. -/
def pyStrip (s : String) : String :=
  ⟨((s.data.dropWhile isPySpace).reverse.dropWhile isPySpace).reverse⟩

/-- The fixed applicant-tracking-system keyword substrings of
backend_logic.py lines 29-31. -/
def atsKeywords : List String :=
  ["careers", "jobs.", "workday", "greenhouse", "lever",
   "smartrecruiters", "successfactors", "myworkdayjobs",
   "oraclecloud", "adp", "ashby", "icims", "bamboohr"]

/-- The fixed aggregator-site substrings of backend_logic.py lines 34-35. -/
def aggregators : List String :=
  ["indeed.", "linkedin.", "ziprecruiter.", "talent.com",
   "glassdoor.", "bebee.", "naukri.", "monster."]

/-- One entry of a SerpApi `apply_options` array.  Only its `link` key is
ever read; `none` models a missing or null link. -/
structure ApplyOption where
  link : Option String
deriving DecidableEq, Repr

/-- A raw job object of a SerpApi `jobs_results` array.  `none` models an
absent key. -/
structure SerpJob where
  via : Option String
  title : Option String
  company_name : Option String
  job_id : Option String
  location : Option String
  description : Option String
  share_link : Option String
  apply_options : Option (List ApplyOption)
deriving DecidableEq, Repr

/-- The inner `score` function of `_pick_best_apply_link`
(backend_logic.py lines 24-38), applied to an already lowercased link:
+5 when the (already lowercased) company name is non-empty and occurs in
the link, +3 per applicant-tracking-system keyword occurring in the link,
-1 per aggregator substring occurring in the link. -/
def scoreLink (company link : String) : Int :=
  (if company ≠ "" ∧ substrB company link = true then 5 else 0)
    + 3 * (atsKeywords.countP (fun kw => substrB kw link) : Int)
    - (aggregators.countP (fun bad => substrB bad link) : Int)

/-- `score(opt)` of backend_logic.py line 24: the option's link is fetched
with `get`, defaulted to the empty string and lowercased (line 25). -/
def optScore (company : String) (opt : ApplyOption) : Int :=
  scoreLink company (pyLower (opt.link.getD ""))

/-- Stable insertion of `x` in front of the first element of an already
descending-sorted list whose score does not exceed `f x`. -/
def insertDesc {α : Type} (f : α → Int) (x : α) : List α → List α
  | [] => [x]
  | y :: ys => if f x ≥ f y then x :: y :: ys else y :: insertDesc f x ys

/-- Python `sorted(l, key=f, reverse=True)` (backend_logic.py line 40):
a stable sort by descending score.  Each element is inserted in front of
the first later-inserted element whose score does not exceed its own, so
elements with equal scores keep their original relative order, exactly as
CPython's stable `sorted` with `reverse=True` does. -/
def sortDesc {α : Type} (f : α → Int) : List α → List α
  | [] => []
  | x :: xs => insertDesc f x (sortDesc f xs)

/-- The earliest element of `x :: xs` attaining the maximal score under
`f`.  This is the selection rule the specification describes ("highest
score, ties broken by original order"); it is proved below to coincide
with the head of `sortDesc f (x :: xs)`. -/
def firstArgmax {α : Type} (f : α → Int) (x : α) : List α → α
  | [] => x
  | y :: ys => if f x ≥ f (firstArgmax f y ys) then x else firstArgmax f y ys

/-- `_pick_best_apply_link` of backend_logic.py lines 15-46.  The options
list and company name are fetched permissively (`get` with `or`
defaults); when the options list is non-empty the highest-scoring option
is chosen by the stable descending sort, its link is returned when it is
a non-empty value, and otherwise the function falls back to a non-empty
`share_link` and finally to the placeholder. -/
def pickBestApplyLink (job : SerpJob) : String :=
  let apply_options := job.apply_options.getD []
  let company := pyLower (job.company_name.getD "")
  let fallback : String :=
    match job.share_link with
    | some s => if s = "" then "#" else s
    | none => "#"
  match sortDesc (optScore company) apply_options with
  | [] => fallback
  | best :: _ =>
    match best.link with
    | some l => if l = "" then fallback else l
    | none => fallback

/-- The de-duplication loop of backend_logic.py lines 83-90 with its
`seen` set made explicit: an element is kept exactly when its key has not
been seen yet, in which case the key is recorded. -/
def dedupAux {α κ : Type} [DecidableEq κ] (key : α → κ) (seen : List κ) : List α → List α
  | [] => []
  | x :: xs =>
    if key x ∈ seen then dedupAux key seen xs
    else x :: dedupAux key (key x :: seen) xs

/-- De-duplication starting from an empty `seen` set. -/
def dedupByKey {α κ : Type} [DecidableEq κ] (key : α → κ) (l : List α) : List α :=
  dedupAux key [] l

/-- Python f-string rendering of `job.get(...)`: an absent key prints as
the text `None` (backend_logic.py line 87). -/
def fmtOptPy : Option String → String
  | some s => s
  | none => "None"

/-- The dedup key the code computes (backend_logic.py lines 86-87):
`job.get("job_id") or ""`, and when that is empty the f-string
`title|company_name|location` with absent fields rendered as `None`. -/
def jobDedupKey (job : SerpJob) : String :=
  let job_id := job.job_id.getD ""
  if job_id = "" then
    fmtOptPy job.title ++ "|" ++ fmtOptPy job.company_name ++ "|" ++ fmtOptPy job.location
  else job_id

/-- Modelled from the specification's words for claim C2 ("the key of a
record is its job_id if present, else the tuple of (title, company,
location)"): a structured key that keeps the three tuple components
separate instead of joining them into one string. -/
inductive SpecDedupKey where
  | jid (s : String)
  | tup (title company location : Option String)
deriving DecidableEq, Repr

/-- The claim's dedup key for a record: job_id if present, else the tuple
(title, company, location). -/
def specDedupKey (job : SerpJob) : SpecDedupKey :=
  match job.job_id with
  | some s => .jid s
  | none => .tup job.title job.company_name job.location

/-- One row of the CSV the scraper writes (backend_logic.py lines
92-101); every column is a string at this point. -/
structure ScrapedRow where
  source : String
  title : String
  company : String
  job_id : String
  location : String
  description : String
  share_link : String
  apply_link : String
deriving DecidableEq, Repr

/-- Normalisation of one raw job into a CSV row (backend_logic.py lines
92-101). -/
def toScrapedRow (job : SerpJob) : ScrapedRow :=
  { source := job.via.getD "Google Jobs"
  , title := job.title.getD "N/A"
  , company := job.company_name.getD "N/A"
  , job_id := job.job_id.getD ""
  , location := job.location.getD "N/A"
  , description := job.description.getD "N/A"
  , share_link := job.share_link.getD ""
  , apply_link := pickBestApplyLink job }

/-- Body of a successful SerpApi response: `jobs_results` may be absent
(`none`) or present with a (possibly empty) list of jobs. -/
structure SearchResponse where
  jobs_results : Option (List SerpJob)
deriving DecidableEq, Repr

/-- Environment of `run_scraper_logic`: the configured API key and the
outcome of the one guarded outbound call (`requests.get` +
`raise_for_status()` + `.json()`, backend_logic.py lines 69-71); `.error`
models any exception raised inside the `try` block. -/
structure ScraperEnv where
  serpApiKey : String
  searchResult : Except String SearchResponse

/-- `run_scraper_logic` of backend_logic.py lines 49-105.  The Bool is
the Python return value; the row list is the content written to
scraped_jobs.csv (empty when the function returns False before writing).
The `pandas.DataFrame(...).to_csv` call is modelled as always succeeding;
every fallible call the claims mention is inside the `try` block and is
covered by `searchResult`. -/
def run_scraper_logic (env : ScraperEnv) (job_title location : String) :
    Bool × List ScrapedRow :=
  if env.serpApiKey = "" then (false, [])
  else
    match env.searchResult with
    | .error _ => (false, [])
    | .ok data =>
      let all_jobs :=
        match data.jobs_results with
        | some js => js
        | none => []
      if all_jobs.isEmpty then (false, [])
      else (true, (dedupByKey jobDedupKey all_jobs).map toScrapedRow)

/-- A cell value as `pandas.read_csv` hands it to the analyzer: a
non-empty cell is a string, an empty cell is the float NaN.  NaN is
truthy in Python and is not an instance of `str`. -/
inductive CsvField where
  | str (s : String)
  | nan
deriving DecidableEq, Repr

/-- Python truthiness of a cell value: a string is truthy when non-empty;
the float NaN is truthy. -/
def CsvField.truthy : CsvField → Bool
  | .str s => s ≠ ""
  | .nan => true

/-- A row of scraped_jobs.csv as seen through `pandas`: `none` models a
column that is absent from the file (`Series.get` then returns `None`). -/
structure CsvRow where
  source : Option CsvField
  title : Option CsvField
  company : Option CsvField
  job_id : Option CsvField
  location : Option CsvField
  description : Option CsvField
  share_link : Option CsvField
  apply_link : Option CsvField
deriving DecidableEq, Repr

/-- How one written string comes back through the CSV file: an empty
string becomes an empty cell and is read back as NaN. -/
def toCsvField (s : String) : CsvField := if s = "" then .nan else .str s

/-- Round trip of one scraped row through `to_csv` / `read_csv`. -/
def rowToCsv (r : ScrapedRow) : CsvRow :=
  { source := some (toCsvField r.source)
  , title := some (toCsvField r.title)
  , company := some (toCsvField r.company)
  , job_id := some (toCsvField r.job_id)
  , location := some (toCsvField r.location)
  , description := some (toCsvField r.description)
  , share_link := some (toCsvField r.share_link)
  , apply_link := some (toCsvField r.apply_link) }

/-- Python `job.get(col) or ""` on a pandas row: a missing column gives
`""`, a falsy value (the empty string) gives `""`, anything truthy
(including NaN) is kept. -/
def pyGetOrEmpty : Option CsvField → CsvField
  | some f => if f.truthy then f else .str ""
  | none => .str ""

/-- One produced match record (backend_logic.py lines 177-183).  The
company, title, location and link fields are pandas cell values. -/
structure MatchRecord where
  company : CsvField
  title : CsvField
  location : CsvField
  link : CsvField
  cover_letter : String
deriving DecidableEq, Repr

/-- The Google Jobs search URL built from a job id (backend_logic.py
line 173). -/
def googleJobsSearchUrl (jid : String) : String :=
  "https://www.google.com/search?q=jobs&ibp=htl;jobs#htivrt=jobs&htidocid=" ++ jid

/-- The `elif`/`else` part of the apply-link fallback (backend_logic.py
lines 171-175): a non-empty string job_id yields the Google Jobs URL,
anything else the placeholder. -/
def jobIdUrlFallback (row : CsvRow) : CsvField :=
  match row.job_id with
  | some (.str jid) => if jid ≠ "" then .str (googleJobsSearchUrl jid) else .str "#"
  | _ => .str "#"

/-- The whole fallback chain of backend_logic.py lines 169-175, entered
when the guard on line 168 fires: a share_link that is a non-empty
string, else the job_id URL, else the placeholder. -/
def csvLinkFallback (row : CsvRow) : CsvField :=
  match row.share_link with
  | some (.str s) => if s ≠ "" then .str s else jobIdUrlFallback row
  | _ => jobIdUrlFallback row

/-- Construction of one match record for a row whose title and company
cells are `tf` and `cf` (backend_logic.py lines 167-183).  The guard `if
not apply_link or apply_link == "#"` fires for a falsy value (empty
string after `get ... or ""`) or the placeholder; the float NaN of an
empty cell is truthy and unequal to "#", so it passes through unchanged. -/
def mkMatchRecord (row : CsvRow) (tf cf : CsvField) (cover : String) : MatchRecord :=
  let apply_link := pyGetOrEmpty row.apply_link
  let apply_link :=
    if apply_link.truthy = false ∨ apply_link = .str "#" then csvLinkFallback row
    else apply_link
  { company := cf
  , title := tf
  , location := (match row.location with | some f => f | none => .str "")
  , link := apply_link
  , cover_letter := cover }

/-- The per-job loop of backend_logic.py lines 149-187 over the first
five rows.  `gen i` is the outcome of the generation call for the i-th
processed row.  The `print` on line 150 and the prompt f-string on line
154 subscript `job["title"]` and `job["company"]` outside the `try`
block, so a row lacking either column raises a KeyError that escapes the
function; a failed generation call is caught and the row is skipped. -/
def analyzeLoop (gen : Nat → Except String String) :
    Nat → List CsvRow → Except String (List MatchRecord)
  | _, [] => .ok []
  | i, row :: rest =>
    match row.title with
    | none => .error "KeyError: title"
    | some tf =>
      match row.company with
      | none => .error "KeyError: company"
      | some cf =>
        match gen i with
        | .error _ => analyzeLoop gen (i + 1) rest
        | .ok text =>
          match analyzeLoop gen (i + 1) rest with
          | .error e => .error e
          | .ok ms => .ok (mkMatchRecord row tf cf (pyStrip text) :: ms)

/-- `extract_text_from_pdf` of backend_logic.py lines 108-119: the whole
body is inside a `try`, so the result is `none` on any reading error and
otherwise the newline-join of the per-page texts (each `or ""`),
stripped. -/
def extract_text_from_pdf (pdf : Except String (List (Option String))) : Option String :=
  match pdf with
  | .ok pages => some (pyStrip (String.intercalate "\n" (pages.map (fun p => p.getD ""))))
  | .error _ => none

/-- Outcome of `pandas.read_csv(jobs_csv_path)` (backend_logic.py line
142): the file may be missing (FileNotFoundError), present but
unparseable or lacking expected columns (any other pandas error), or
parsed into rows. -/
inductive CsvOutcome where
  | missing
  | malformed
  | ok (rows : List CsvRow)

/-- Environment of `run_analyzer_logic`: the configured key, the outcome
of `genai.configure` + model construction (lines 130-135), the outcome of
reading the uploaded PDF, the outcome of reading the jobs CSV, and the
outcome of each generation call. -/
structure AnalyzerEnv where
  geminiApiKey : String
  configOutcome : Except String Unit
  pdf : Except String (List (Option String))
  csvOutcome : CsvOutcome
  gen : Nat → Except String String

/-- `run_analyzer_logic` of backend_logic.py lines 122-190.  Only
FileNotFoundError is caught around `read_csv` (lines 141-145), so a
malformed CSV propagates a pandas error out of the function, modelled by
`.error`. -/
def run_analyzer_logic (env : AnalyzerEnv) : Except String (List MatchRecord) :=
  if env.geminiApiKey = "" then .ok []
  else
    match env.configOutcome with
    | .error _ => .ok []
    | .ok _ =>
      match extract_text_from_pdf env.pdf with
      | none => .ok []
      | some resume_text =>
        if resume_text = "" then .ok []
        else
          match env.csvOutcome with
          | .missing => .ok []
          | .malformed => .error "ParserError"
          | .ok rows => analyzeLoop env.gen 0 (rows.take 5)

/-- The file part of a multipart request: only its filename is inspected
by app.py. -/
structure UploadedFile where
  filename : String
deriving DecidableEq, Repr

/-- An inbound request to /process: the `resume` file part and the two
form fields, each possibly absent. -/
structure HttpRequest where
  resume : Option UploadedFile
  domain : Option String
  location : Option String
deriving DecidableEq, Repr

/-- The JSON body the /process route answers with: either a 400-style
error object or the success object of app.py lines 45-49. -/
inductive ProcessResponse where
  | badRequest (error : String)
  | success (domain location : String) (matched_jobs : List MatchRecord)
deriving DecidableEq, Repr

/-- `process_resume` of app.py lines 21-49.  The scraper writes
scraped_jobs.csv and the analyzer reads the same file back, so in this
composition the analyzer's CSV outcome is the round-tripped row list the
scraper produced; the analyzer's PDF outcome models the file just saved
from the upload.  An exception escaping `run_analyzer_logic` escapes the
handler, modelled by `.error`. -/
def process_resume (senv : ScraperEnv) (aenv : AnalyzerEnv) (req : HttpRequest) :
    Except String ProcessResponse :=
  match req.resume with
  | none => .ok (.badRequest "No resume file selected.")
  | some resume_file =>
    let domain := pyStrip (req.domain.getD "")
    let location := pyStrip (req.location.getD "")
    if resume_file.filename = "" ∨ domain = "" ∨ location = "" then
      .ok (.badRequest "Please upload a resume and enter both domain and location.")
    else
      let r := run_scraper_logic senv domain location
      if r.1 then
        match run_analyzer_logic { aenv with csvOutcome := .ok (r.2.map rowToCsv) } with
        | .error e => .error e
        | .ok ms => .ok (.success domain location ms)
      else
        .ok (.badRequest "Could not find any jobs for the specified domain/location. Please try another one.")

/-- One registered Flask route of app.py: its method, path, whether the
handler reads an uploaded file, how many form fields it reads, and
whether it returns a fixed (request-independent) JSON body. -/
structure Route where
  method : String
  path : String
  acceptsFileUpload : Bool
  formFieldsRead : Nat
  returnsFixedJson : Bool
deriving DecidableEq, Repr

/-- The three routes app.py registers: POST /process (file upload plus
the domain and location form fields, dynamic JSON), GET / (fixed JSON
message) and GET /healthz (fixed JSON health body). -/
def appRoutes : List Route :=
  [ { method := "POST", path := "/process", acceptsFileUpload := true
    , formFieldsRead := 2, returnsFixedJson := false }
  , { method := "GET", path := "/", acceptsFileUpload := false
    , formFieldsRead := 0, returnsFixedJson := true }
  , { method := "GET", path := "/healthz", acceptsFileUpload := false
    , formFieldsRead := 0, returnsFixedJson := true } ]

/-- Job record for claim C1: its single apply option has no link, and the
record has a non-empty share_link. -/
def jobC1ce : SerpJob :=
  { via := none, title := none, company_name := none, job_id := none
  , location := none, description := none
  , share_link := some "https://example.com"
  , apply_options := some [⟨none⟩] }

/-- Job record for the C1 witness: two options, the first on the employer
careers domain, the second on an aggregator. -/
def jobC1w : SerpJob :=
  { via := none, title := none, company_name := some "Acme", job_id := none
  , location := none, description := none, share_link := none
  , apply_options := some [⟨some "https://careers.acme.com/101"⟩,
                           ⟨some "https://indeed.example/x"⟩] }

/-- First record of the C2 counterexample: title contains a pipe. -/
def jobC2a : SerpJob :=
  { via := none, title := some "x|y", company_name := some "z", job_id := none
  , location := some "w", description := none, share_link := none
  , apply_options := none }

/-- Second record of the C2 counterexample: a different (title, company,
location) tuple whose pipe-joined rendering coincides with the first. -/
def jobC2b : SerpJob :=
  { via := none, title := some "x", company_name := some "y|z", job_id := none
  , location := some "w", description := none, share_link := none
  , apply_options := none }

/-- Scraper environment for claim C2: the search succeeds with the two
colliding records. -/
def envC2 : ScraperEnv :=
  { serpApiKey := "k", searchResult := .ok { jobs_results := some [jobC2a, jobC2b] } }

/-- First record of the C2 witness input. -/
def jobC2w1 : SerpJob :=
  { via := none, title := some "Dev", company_name := some "A", job_id := some "id1"
  , location := some "X", description := none, share_link := none, apply_options := none }

/-- Second record of the C2 witness input: same job_id as the first. -/
def jobC2w2 : SerpJob :=
  { via := none, title := some "Dev2", company_name := some "A", job_id := some "id1"
  , location := some "X", description := none, share_link := none, apply_options := none }

/-- Third record of the C2 witness input: a distinct job_id. -/
def jobC2w3 : SerpJob :=
  { via := none, title := some "Dev", company_name := some "B", job_id := some "id2"
  , location := some "X", description := none, share_link := none, apply_options := none }

/-- Scraper environment for the C2 witness: two honest duplicates by
job_id and one distinct record. -/
def envC2w : ScraperEnv :=
  { serpApiKey := "k"
  , searchResult := .ok { jobs_results := some [jobC2w1, jobC2w2, jobC2w3] } }

/-- Job record for the C4 witness: no apply options and a share link. -/
def jobC4w : SerpJob :=
  { via := none, title := none, company_name := none, job_id := none
  , location := none, description := none
  , share_link := some "https://share.example/j", apply_options := none }

/-- Analyzer environment for claim C5: everything is fine except that the
jobs CSV is present but unparseable. -/
def aenvC5ce : AnalyzerEnv :=
  { geminiApiKey := "g", configOutcome := .ok ()
  , pdf := .ok [some "resume text"], csvOutcome := .malformed
  , gen := fun _ => .ok "text" }

/-- Scraper environment for the C5 witness: the outbound search call
raises. -/
def senvC5w : ScraperEnv := { serpApiKey := "k", searchResult := .error "boom" }

/-- A well-formed CSV row for the C5 witness. -/
def rowC5w : CsvRow :=
  { source := some (.str "Google Jobs"), title := some (.str "Dev")
  , company := some (.str "A"), job_id := some .nan, location := some (.str "X")
  , description := some (.str "d"), share_link := some .nan
  , apply_link := some (.str "#") }

/-- Analyzer environment for the C5 witness: a readable CSV whose rows
have title and company columns. -/
def aenvC5w : AnalyzerEnv :=
  { geminiApiKey := "g", configOutcome := .ok ()
  , pdf := .ok [some "resume text"], csvOutcome := .ok [rowC5w]
  , gen := fun _ => .error "gemini down" }

/-- Scraper environment for the C6 witness: the key is unset while the
network call would have succeeded with a job. -/
def senvC6w : ScraperEnv :=
  { serpApiKey := ""
  , searchResult := .ok { jobs_results := some [jobC2a] } }

/-- Analyzer environment for the C6 witness: the key is unset while every
later stage would have succeeded. -/
def aenvC6w : AnalyzerEnv :=
  { geminiApiKey := "", configOutcome := .ok ()
  , pdf := .ok [some "resume text"], csvOutcome := .ok [rowC5w]
  , gen := fun _ => .ok "text" }

/-- A raw job with every field absent, for claim C7. -/
def jobC7 : SerpJob :=
  { via := none, title := none, company_name := none, job_id := none
  , location := none, description := none, share_link := none, apply_options := none }

/-- A valid /process request for claim C7. -/
def reqC7 : HttpRequest :=
  { resume := some { filename := "resume.pdf" }
  , domain := some "software engineer", location := some "Austin" }

/-- Scraper environment for the C7 counterexample: one job result. -/
def senvC7 : ScraperEnv :=
  { serpApiKey := "k", searchResult := .ok { jobs_results := some [jobC7] } }

/-- Analyzer environment for the C7 counterexample: the generation stub
returns the non-empty text consisting of one space. -/
def aenvC7ce : AnalyzerEnv :=
  { geminiApiKey := "g", configOutcome := .ok ()
  , pdf := .ok [some "John Doe resume"], csvOutcome := .missing
  , gen := fun _ => .ok " " }

/-- Analyzer environment for the C7 witness: the generation stub returns
text with non-whitespace content. -/
def aenvC7w : AnalyzerEnv :=
  { geminiApiKey := "g", configOutcome := .ok ()
  , pdf := .ok [some "John Doe resume"], csvOutcome := .missing
  , gen := fun _ => .ok "Dear team, I am a great fit. Sincerely, John Doe" }

/-- Scraper environment for the C7 witness first conjunct: the search
succeeds with zero results. -/
def senvC7z : ScraperEnv :=
  { serpApiKey := "k", searchResult := .ok { jobs_results := some [] } }

/-- Analyzer environment for the C8 witness. -/
def aenvC8w : AnalyzerEnv :=
  { geminiApiKey := "g", configOutcome := .ok ()
  , pdf := .ok [some "resume text"], csvOutcome := .ok [rowC5w]
  , gen := fun _ => .ok "text" }

/-- A generation stub for the C8 witness that agrees with `aenvC8w.gen`
on the first five calls and differs afterwards. -/
def genC8far : Nat → Except String String :=
  fun i => if i < 5 then .ok "text" else .error "never issued"

/-- CSV row for the C10 counterexample: the apply_link cell is empty
(read back as NaN) while a non-empty share_link is available. -/
def rowC10ce : CsvRow :=
  { source := none, title := some (.str "T"), company := some (.str "C")
  , job_id := none, location := none, description := none
  , share_link := some (.str "https://sl.example/x"), apply_link := some .nan }

/-- Analyzer environment for the C10 counterexample. -/
def aenvC10ce : AnalyzerEnv :=
  { geminiApiKey := "g", configOutcome := .ok ()
  , pdf := .ok [some "resume"], csvOutcome := .ok [rowC10ce]
  , gen := fun _ => .ok "cover text" }

/-- CSV row for the C10 witness: the apply_link column holds the
placeholder and the share_link cell is empty, so the job_id URL is the
expected fallback. -/
def rowC10w : CsvRow :=
  { source := none, title := some (.str "T"), company := some (.str "C")
  , job_id := some (.str "abc123"), location := some (.str "X"), description := none
  , share_link := some .nan, apply_link := some (.str "#") }

/-- Analyzer environment for the C10 witness. -/
def aenvC10w : AnalyzerEnv :=
  { geminiApiKey := "g", configOutcome := .ok ()
  , pdf := .ok [some "resume"], csvOutcome := .ok [rowC10w]
  , gen := fun _ => .ok "cover text" }


/-- Inserting an element never produces an empty list. -/
theorem insertDesc_ne_nil {α : Type} (f : α → Int) (x : α) (l : List α) :
    insertDesc f x l ≠ [] := by
  cases l with
  | nil => simp [insertDesc]
  | cons y ys =>
    simp only [insertDesc]
    split <;> simp

/-- The head of the stable descending sort of a nonempty list is its
earliest maximal element: what Python `sorted(l, key=f, reverse=True)[0]`
selects. -/
theorem head?_sortDesc {α : Type} (f : α → Int) (x : α) (xs : List α) :
    (sortDesc f (x :: xs)).head? = some (firstArgmax f x xs) := by
  induction xs generalizing x with
  | nil => simp [sortDesc, insertDesc, firstArgmax]
  | cons y ys ih =>
    have hx : sortDesc f (x :: y :: ys) = insertDesc f x (sortDesc f (y :: ys)) := rfl
    rcases hE : sortDesc f (y :: ys) with _ | ⟨b, t⟩
    · rw [show sortDesc f (y :: ys) = insertDesc f y (sortDesc f ys) from rfl] at hE
      exact absurd hE (insertDesc_ne_nil f y (sortDesc f ys))
    · have hb : b = firstArgmax f y ys := by
        have h2 := ih y
        rw [hE] at h2
        simpa using h2
      rw [hx, hE]
      simp only [insertDesc, firstArgmax, ← hb]
      split <;> simp

/-- C1 (amended): for a job record with a non-empty list of apply
options, `_pick_best_apply_link` returns the link of the candidate with
the highest score (earliest candidate on ties, scored exactly as the
code scores) provided that candidate's link is present and non-empty;
a best candidate with a missing or empty link instead triggers the
share-link/placeholder fallback, which is what the counterexample
exhibits. -/
theorem c1_pick_best_is_first_argmax (job : SerpJob) (o : ApplyOption)
    (os : List ApplyOption) (l : String)
    (hopts : job.apply_options.getD [] = o :: os)
    (hlink : (firstArgmax (optScore (pyLower (job.company_name.getD ""))) o os).link = some l)
    (hne : l ≠ "") :
    pickBestApplyLink job = l := by
  simp only [pickBestApplyLink]
  rw [hopts]
  rcases hE : sortDesc (optScore (pyLower (job.company_name.getD ""))) (o :: os) with _ | ⟨b, t⟩
  · rw [show sortDesc (optScore (pyLower (job.company_name.getD ""))) (o :: os) =
        insertDesc (optScore (pyLower (job.company_name.getD ""))) o
          (sortDesc (optScore (pyLower (job.company_name.getD ""))) os) from rfl] at hE
    exact absurd hE (insertDesc_ne_nil _ o _)
  · have hb : b = firstArgmax (optScore (pyLower (job.company_name.getD ""))) o os := by
      have h2 := head?_sortDesc (optScore (pyLower (job.company_name.getD ""))) o os
      rw [hE] at h2
      simpa using h2
    subst hb
    simp [hlink, hne]

/-- C1 counterexample: a record whose single (hence best) apply option
has no link; the code returns the share link, not the best candidate's
link, refuting the claim as stated. -/
theorem c1_counterexample :
    jobC1ce.apply_options.getD [] = [(⟨none⟩ : ApplyOption)] ∧
    pickBestApplyLink jobC1ce = "https://example.com" ∧
    pickBestApplyLink jobC1ce ≠
      (firstArgmax (optScore (pyLower (jobC1ce.company_name.getD "")))
        ⟨none⟩ []).link.getD "" :=
  ⟨rfl, rfl, by decide⟩

/-- Witness for the amended C1 theorem at a concrete two-option record. -/
theorem c1_pick_best_is_first_argmax_witness :
    jobC1w.apply_options.getD [] =
      [(⟨some "https://careers.acme.com/101"⟩ : ApplyOption),
       ⟨some "https://indeed.example/x"⟩] ∧
    pickBestApplyLink jobC1w = "https://careers.acme.com/101" :=
  ⟨rfl, c1_pick_best_is_first_argmax jobC1w ⟨some "https://careers.acme.com/101"⟩
    [⟨some "https://indeed.example/x"⟩] "https://careers.acme.com/101"
    rfl (by decide) (by decide)⟩

/-- C3: with a non-empty (lowercased) employer name, an option whose
lowercased link contains the name scores strictly higher than an option
whose link does not, provided the two links agree on every fixed
applicant-tracking-system keyword and aggregator substring match (the
sense in which the two options are otherwise identical for the scorer). -/
theorem c3_company_substring_scores_higher (company : String) (o1 o2 : ApplyOption)
    (hc : company ≠ "")
    (h1 : substrB company (pyLower (o1.link.getD "")) = true)
    (h2 : substrB company (pyLower (o2.link.getD "")) = false)
    (hats : ∀ kw ∈ atsKeywords,
      substrB kw (pyLower (o1.link.getD "")) = substrB kw (pyLower (o2.link.getD "")))
    (hagg : ∀ b ∈ aggregators,
      substrB b (pyLower (o1.link.getD "")) = substrB b (pyLower (o2.link.getD ""))) :
    optScore company o1 > optScore company o2 := by
  unfold optScore scoreLink
  have hA : atsKeywords.countP (fun kw => substrB kw (pyLower (o1.link.getD ""))) =
      atsKeywords.countP (fun kw => substrB kw (pyLower (o2.link.getD ""))) :=
    List.countP_congr (fun a ha => by rw [hats a ha])
  have hB : aggregators.countP (fun b => substrB b (pyLower (o1.link.getD ""))) =
      aggregators.countP (fun b => substrB b (pyLower (o2.link.getD ""))) :=
    List.countP_congr (fun a ha => by rw [hagg a ha])
  rw [hA, hB, if_pos ⟨hc, h1⟩, if_neg (by simp [h2])]
  omega

/-- Witness for C3 at concrete options: same keyword profile, the first
link contains the employer name. -/
theorem c3_company_substring_scores_higher_witness :
    ("acme" : String) ≠ "" ∧
    optScore "acme" ⟨some "https://acme.example/a"⟩ >
      optScore "acme" ⟨some "https://other.example/a"⟩ :=
  ⟨by decide, c3_company_substring_scores_higher "acme"
    ⟨some "https://acme.example/a"⟩ ⟨some "https://other.example/a"⟩
    (by decide) (by decide) (by decide) (by decide) (by decide)⟩

/-- C4: when the apply-options list is absent or empty (after the
permissive `get ... or []`), `_pick_best_apply_link` returns the record's
share_link when that is a non-empty value and the placeholder otherwise;
on every record (missing fields included) the function is total and
returns a string, which in this embedding holds by construction. -/
theorem c4_empty_options_fallback (job : SerpJob)
    (h : job.apply_options.getD [] = []) :
    pickBestApplyLink job =
      (if job.share_link.getD "" = "" then "#" else job.share_link.getD "") := by
  simp only [pickBestApplyLink]
  rw [h]
  cases hs : job.share_link with
  | none => simp [sortDesc]
  | some s => simp [sortDesc]

/-- Witness for C4 at a record with no options and a non-empty share
link. -/
theorem c4_empty_options_fallback_witness :
    jobC4w.apply_options.getD [] = [] ∧
    pickBestApplyLink jobC4w = "https://share.example/j" :=
  ⟨rfl, by rw [c4_empty_options_fallback jobC4w rfl]; rfl⟩

/-- De-duplication only removes elements: the result is a sublist of the
input, so retained records keep their relative input order. -/
theorem dedupAux_sublist {α κ : Type} [DecidableEq κ] (key : α → κ) :
    ∀ (l : List α) (seen : List κ), List.Sublist (dedupAux key seen l) l := by
  intro l
  induction l with
  | nil => intro seen; simp [dedupAux]
  | cons x xs ih =>
    intro seen
    simp only [dedupAux]
    split
    · exact List.Sublist.cons x (ih seen)
    · exact List.Sublist.cons₂ x (ih (key x :: seen))

/-- The keys of the de-duplicated list are pairwise distinct and disjoint
from the already-seen set. -/
theorem dedupAux_keys_nodup {α κ : Type} [DecidableEq κ] (key : α → κ) :
    ∀ (l : List α) (seen : List κ),
      ((dedupAux key seen l).map key).Nodup ∧
      ∀ k ∈ (dedupAux key seen l).map key, k ∉ seen := by
  intro l
  induction l with
  | nil => intro seen; simp [dedupAux]
  | cons x xs ih =>
    intro seen
    simp only [dedupAux]
    split
    · exact ih seen
    · rename_i hnot
      obtain ⟨hnd, hmem⟩ := ih (key x :: seen)
      constructor
      · simp only [List.map_cons, List.nodup_cons]
        exact ⟨fun hx => (hmem _ hx) (List.mem_cons_self _ _), hnd⟩
      · intro k hk
        simp only [List.map_cons, List.mem_cons] at hk
        rcases hk with rfl | hk
        · exact hnot
        · exact fun hks => (hmem k hk) (List.mem_cons_of_mem _ hks)

/-- Every input element whose key is not already seen is represented in
the de-duplicated output (by key). -/
theorem dedupAux_key_mem {α κ : Type} [DecidableEq κ] (key : α → κ) :
    ∀ (l : List α) (seen : List κ) (x : α), x ∈ l → key x ∉ seen →
      key x ∈ (dedupAux key seen l).map key := by
  intro l
  induction l with
  | nil => intro seen x hx; simp at hx
  | cons y ys ih =>
    intro seen x hx hns
    simp only [dedupAux]
    split
    · rename_i hseen
      rcases List.mem_cons.mp hx with rfl | hx2
      · exact absurd hseen hns
      · exact ih seen x hx2 hns
    · rename_i hnot
      rcases List.mem_cons.mp hx with rfl | hx2
      · simp
      · by_cases hkk : key x = key y
        · simp [List.map_cons, List.mem_cons, hkk]
        · have hni : key x ∉ key y :: seen := by
            simp [List.mem_cons, hkk, hns]
          simp only [List.map_cons, List.mem_cons]
          exact Or.inr (ih (key y :: seen) x hx2 hni)

/-- The representative the de-duplicated list holds for a key is the
first input element bearing that key. -/
theorem dedupAux_find? {α κ : Type} [DecidableEq κ] (key : α → κ) (k : κ) :
    ∀ (l : List α) (seen : List κ),
      (dedupAux key seen l).find? (fun y => key y = k) =
        if k ∈ seen then none else l.find? (fun y => key y = k) := by
  intro l
  induction l with
  | nil => intro seen; simp [dedupAux]
  | cons x xs ih =>
    intro seen
    simp only [dedupAux]
    split
    · rename_i hseen
      rw [ih seen]
      by_cases hk : k ∈ seen
      · simp [hk]
      · have hxk : ¬ (key x = k) := fun h => hk (h ▸ hseen)
        simp [hk, List.find?_cons, hxk, Ne.symm hxk]
    · rename_i hnot
      by_cases hxk : key x = k
      · have hks : k ∉ seen := fun h => hnot (hxk ▸ h)
        simp [List.find?_cons, hxk, hks]
      · rw [List.find?_cons, List.find?_cons]
        simp only [hxk, decide_False]
        rw [ih (key x :: seen)]
        by_cases hk : k ∈ seen
        · simp [hk, List.mem_cons]
        · have hni : k ∉ key x :: seen := by
            simp [List.mem_cons, hk, Ne.symm hxk]
          simp [hni, hk]

/-- C2 (amended): the scraper de-duplicates by the string key
`job_id or "title|company_name|location"` (absent fields rendered as
`None`), not by a structured tuple: the output rows are exactly the
normalisation of the sublist of first key occurrences, in input order —
the result is a sublist of the input, its keys are pairwise distinct,
every input key is represented, and the representative of each key is
the first input record bearing it.  Distinct (title, company, location)
tuples whose pipe-joined renderings coincide are treated as duplicates,
which is what the counterexample exhibits. -/
theorem c2_dedup_first_occurrence (env : ScraperEnv) (jobs : List SerpJob)
    (jt loc : String)
    (hkey : env.serpApiKey ≠ "")
    (hres : env.searchResult = .ok { jobs_results := some jobs })
    (hne : jobs ≠ []) :
    (run_scraper_logic env jt loc).2 = (dedupByKey jobDedupKey jobs).map toScrapedRow ∧
    List.Sublist (dedupByKey jobDedupKey jobs) jobs ∧
    ((dedupByKey jobDedupKey jobs).map jobDedupKey).Nodup ∧
    (∀ j ∈ jobs, jobDedupKey j ∈ (dedupByKey jobDedupKey jobs).map jobDedupKey) ∧
    (∀ k, (dedupByKey jobDedupKey jobs).find? (fun y => jobDedupKey y = k) =
      jobs.find? (fun y => jobDedupKey y = k)) := by
  refine ⟨?_, dedupAux_sublist _ jobs [], (dedupAux_keys_nodup _ jobs []).1,
    fun j hj => dedupAux_key_mem _ jobs [] j hj (by simp),
    fun k => by rw [dedupByKey, dedupAux_find? _ k jobs []]; simp⟩
  simp only [run_scraper_logic, hres]
  rw [if_neg hkey]
  have hie : jobs.isEmpty = false := by
    cases jobs with
    | nil => exact absurd rfl hne
    | cons a b => rfl
  simp [hie]

/-- C2 counterexample: two records with distinct (title, company,
location) tuples — hence distinct claim keys — collide on the code's
pipe-joined string key, so the second is dropped where the claim says it
must be retained. -/
theorem c2_counterexample :
    specDedupKey jobC2a ≠ specDedupKey jobC2b ∧
    jobDedupKey jobC2a = jobDedupKey jobC2b ∧
    (run_scraper_logic envC2 "t" "u").2 = [toScrapedRow jobC2a] ∧
    (dedupByKey specDedupKey [jobC2a, jobC2b]).length = 2 :=
  ⟨by decide, by decide, by decide, by decide⟩

/-- Witness for the amended C2 theorem: three records, the second a
genuine job_id duplicate of the first. -/
theorem c2_dedup_first_occurrence_witness :
    envC2w.serpApiKey ≠ "" ∧
    (run_scraper_logic envC2w "t" "u").2 =
      (dedupByKey jobDedupKey [jobC2w1, jobC2w2, jobC2w3]).map toScrapedRow ∧
    dedupByKey jobDedupKey [jobC2w1, jobC2w2, jobC2w3] = [jobC2w1, jobC2w3] :=
  ⟨by decide,
   (c2_dedup_first_occurrence envC2w [jobC2w1, jobC2w2, jobC2w3] "t" "u"
     (by decide) rfl (by decide)).1,
   by decide⟩

/-- When every row of the list carries its title and company columns the
per-job loop never raises: generation failures are skipped, everything
else only appends. -/
theorem analyzeLoop_isOk (gen : Nat → Except String String) :
    ∀ (l : List CsvRow) (i : Nat),
      (∀ r ∈ l, r.title ≠ none ∧ r.company ≠ none) →
      ∃ ms, analyzeLoop gen i l = .ok ms := by
  intro l
  induction l with
  | nil => exact fun i _ => ⟨[], rfl⟩
  | cons row rest ih =>
    intro i h
    obtain ⟨ht, hc⟩ := h row (List.mem_cons_self _ _)
    obtain ⟨tf, htf⟩ := Option.ne_none_iff_exists'.mp ht
    obtain ⟨cf, hcf⟩ := Option.ne_none_iff_exists'.mp hc
    obtain ⟨ms, hms⟩ := ih (i + 1) (fun r hr => h r (List.mem_cons_of_mem _ hr))
    simp only [analyzeLoop, htf, hcf]
    cases hg : gen i with
    | error e => exact ⟨ms, hms⟩
    | ok text => exact ⟨mkMatchRecord row tf cf (pyStrip text) :: ms, by rw [hms]⟩

/-- The loop appends at most one match per processed row. -/
theorem analyzeLoop_length (gen : Nat → Except String String) :
    ∀ (l : List CsvRow) (i : Nat) (ms : List MatchRecord),
      analyzeLoop gen i l = .ok ms → ms.length ≤ l.length := by
  intro l
  induction l with
  | nil =>
    intro i ms h
    simp only [analyzeLoop] at h
    cases h
    simp
  | cons row rest ih =>
    intro i ms h
    simp only [analyzeLoop] at h
    cases htf : row.title with
    | none => rw [htf] at h; cases h
    | some tf =>
      rw [htf] at h
      cases hcf : row.company with
      | none => rw [hcf] at h; cases h
      | some cf =>
        rw [hcf] at h
        cases hg : gen i with
        | error e =>
          rw [hg] at h
          exact le_trans (ih (i + 1) ms h) (by simp)
        | ok text =>
          rw [hg] at h
          cases hr : analyzeLoop gen (i + 1) rest with
          | error e => rw [hr] at h; cases h
          | ok ms2 =>
            rw [hr] at h
            have h2 : mkMatchRecord row tf cf (pyStrip text) :: ms2 = ms := by
              injection h
            have h3 := ih (i + 1) ms2 hr
            rw [← h2]
            simp only [List.length_cons]
            omega

/-- The loop consults the generation outcome only at the indices of the
rows it processes. -/
theorem analyzeLoop_congr (g g' : Nat → Except String String) :
    ∀ (l : List CsvRow) (i : Nat),
      (∀ j, i ≤ j → j < i + l.length → g' j = g j) →
      analyzeLoop g' i l = analyzeLoop g i l := by
  intro l
  induction l with
  | nil => intro i h; rfl
  | cons row rest ih =>
    intro i h
    have hgi : g' i = g i := h i (le_refl i) (by simp)
    have ih2 : analyzeLoop g' (i + 1) rest = analyzeLoop g (i + 1) rest :=
      ih (i + 1) (fun j h1 h2 => h j (by omega) (by simp at h2 ⊢; omega))
    simp only [analyzeLoop, hgi, ih2]

/-- C5 (amended): a failing outbound search call yields False from the
scraper; an unreadable PDF, a missing jobs CSV or any set of per-job
generation failures yield a list from the analyzer — but a malformed
(present yet unparseable, or column-deficient) jobs CSV is outside the
narrow `except FileNotFoundError` and raises out of `run_analyzer_logic`,
which is what the counterexample exhibits. -/
theorem c5_error_containment (senv : ScraperEnv) (aenv : AnalyzerEnv)
    (jt loc e : String) (rows : List CsvRow) :
    (senv.searchResult = .error e → run_scraper_logic senv jt loc = (false, [])) ∧
    ((∃ pe, aenv.pdf = .error pe) → run_analyzer_logic aenv = .ok []) ∧
    (aenv.csvOutcome = .missing → run_analyzer_logic aenv = .ok []) ∧
    (aenv.csvOutcome = .ok rows →
      (∀ r ∈ rows.take 5, r.title ≠ none ∧ r.company ≠ none) →
      ∃ ms, run_analyzer_logic aenv = .ok ms) := by
  refine ⟨?_, ?_, ?_, ?_⟩
  · intro h
    unfold run_scraper_logic
    rw [h]
    by_cases hk : senv.serpApiKey = "" <;> simp [hk]
  · rintro ⟨pe, hpe⟩
    unfold run_analyzer_logic
    by_cases hk : aenv.geminiApiKey = ""
    · simp [hk]
    · rw [if_neg hk]
      cases aenv.configOutcome with
      | error e2 => rfl
      | ok u => simp [extract_text_from_pdf, hpe]
  · intro hcsv
    unfold run_analyzer_logic
    by_cases hk : aenv.geminiApiKey = ""
    · simp [hk]
    · rw [if_neg hk]
      cases aenv.configOutcome with
      | error e2 => rfl
      | ok u =>
        cases hp : extract_text_from_pdf aenv.pdf with
        | none => rfl
        | some t =>
          by_cases ht : t = ""
          · simp [ht]
          · simp [ht, hcsv]
  · intro hcsv hcols
    by_cases hk : aenv.geminiApiKey = ""
    · exact ⟨[], by simp [run_analyzer_logic, hk]⟩
    · cases hc : aenv.configOutcome with
      | error e2 => exact ⟨[], by simp [run_analyzer_logic, hk, hc]⟩
      | ok u =>
        cases hp : extract_text_from_pdf aenv.pdf with
        | none => exact ⟨[], by simp [run_analyzer_logic, hk, hc, hp]⟩
        | some t =>
          by_cases ht : t = ""
          · exact ⟨[], by simp [run_analyzer_logic, hk, hc, hp, ht]⟩
          · obtain ⟨ms, hms⟩ := analyzeLoop_isOk aenv.gen (rows.take 5) 0 hcols
            exact ⟨ms, by simp [run_analyzer_logic, hk, hc, hp, ht, hcsv, hms]⟩

/-- C5 counterexample: with every other stage healthy, a present but
unparseable jobs CSV makes `run_analyzer_logic` propagate the pandas
error instead of returning a list. -/
theorem c5_counterexample :
    run_analyzer_logic aenvC5ce = .error "ParserError" ∧
    (run_analyzer_logic aenvC5ce).toOption = none :=
  ⟨rfl, rfl⟩

/-- Witness for the amended C5 theorem: a failing search call and an
analyzer environment whose every generation call fails. -/
theorem c5_error_containment_witness :
    senvC5w.searchResult = .error "boom" ∧
    run_scraper_logic senvC5w "a" "b" = (false, []) ∧
    aenvC5w.csvOutcome = .ok [rowC5w] ∧
    (∃ ms, run_analyzer_logic aenvC5w = .ok ms) := by
  refine ⟨rfl, (c5_error_containment senvC5w aenvC5w "a" "b" "boom" [rowC5w]).1 rfl,
    rfl, ?_⟩
  exact (c5_error_containment senvC5w aenvC5w "a" "b" "boom" [rowC5w]).2.2.2 rfl (by decide)

/-- C6: an unset search API key makes the scraper return False (and
write nothing) whatever the search outcome would have been, and an unset
generation API key makes the analyzer return the empty list whatever the
later stages would have done; the universal quantification over the
environment is exactly the statement that no outbound call is consulted. -/
theorem c6_missing_keys_short_circuit (senv : ScraperEnv) (aenv : AnalyzerEnv)
    (jt loc : String) :
    (senv.serpApiKey = "" → run_scraper_logic senv jt loc = (false, [])) ∧
    (aenv.geminiApiKey = "" → run_analyzer_logic aenv = .ok []) := by
  constructor
  · intro h
    simp [run_scraper_logic, h]
  · intro h
    simp [run_analyzer_logic, h]

/-- Witness for C6 at concrete environments whose keys are unset while
every modelled call would have succeeded. -/
theorem c6_missing_keys_short_circuit_witness :
    senvC6w.serpApiKey = "" ∧ run_scraper_logic senvC6w "t" "u" = (false, []) ∧
    aenvC6w.geminiApiKey = "" ∧ run_analyzer_logic aenvC6w = .ok [] :=
  ⟨rfl, (c6_missing_keys_short_circuit senvC6w aenvC6w "t" "u").1 rfl, rfl,
   (c6_missing_keys_short_circuit senvC6w aenvC6w "t" "u").2 rfl⟩

/-- C8: the analyzer processes only the first five CSV rows — any
successful result holds at most five match records, and the result is
unchanged when the generation outcomes are modified from the sixth call
on. -/
theorem c8_at_most_five (env : AnalyzerEnv) (g2 : Nat → Except String String)
    (hg : ∀ i, i < 5 → g2 i = env.gen i) :
    (∀ ms, run_analyzer_logic env = .ok ms → ms.length ≤ 5) ∧
    run_analyzer_logic { env with gen := g2 } = run_analyzer_logic env := by
  constructor
  · intro ms h
    unfold run_analyzer_logic at h
    split at h
    · injection h with h2; simp [← h2]
    split at h
    · injection h with h2; simp [← h2]
    split at h
    · injection h with h2; simp [← h2]
    split at h
    · injection h with h2; simp [← h2]
    split at h
    · injection h with h2; simp [← h2]
    · cases h
    · rename_i rows hrows
      have h4 := analyzeLoop_length env.gen (rows.take 5) 0 ms h
      have h5 : (rows.take 5).length ≤ 5 := by
        simp [List.length_take]
      omega
  · have hcgr : ∀ rows : List CsvRow,
        analyzeLoop g2 0 (rows.take 5) = analyzeLoop env.gen 0 (rows.take 5) := by
      intro rows
      refine analyzeLoop_congr env.gen g2 (rows.take 5) 0 (fun j h1 h2 => hg j ?_)
      have h5 : (rows.take 5).length ≤ 5 := by
        simp [List.length_take]
      omega
    unfold run_analyzer_logic
    dsimp only
    split
    · rfl
    split
    · rfl
    split
    · rfl
    split
    · rfl
    split
    · rfl
    · rfl
    rename_i rows hrows
    exact hcgr rows

/-- Witness for C8: a generation stub differing from the environment's
only from the sixth call on leaves the result unchanged, and the result
list length is within the bound. -/
theorem c8_at_most_five_witness :
    run_analyzer_logic { aenvC8w with gen := genC8far } = run_analyzer_logic aenvC8w ∧
    (∀ ms, run_analyzer_logic aenvC8w = .ok ms → ms.length ≤ 5) := by
  have hg : ∀ i, i < 5 → genC8far i = aenvC8w.gen i := by
    intro i hi
    simp [genC8far, aenvC8w, hi]
  exact ⟨(c8_at_most_five aenvC8w genC8far hg).2, (c8_at_most_five aenvC8w genC8far hg).1⟩

/-- C7 (amended): for a valid request (resume part present with a
non-empty filename, non-empty stripped domain and location): a stubbed
search returning zero job results yields a 400-style error body, and a
stubbed search returning exactly one job record together with a
generation stub returning text that is non-empty after stripping yields
exactly one match record whose cover letter is that stripped, non-empty
text.  A generation stub returning non-empty but all-whitespace text
yields an empty cover letter, which is what the counterexample exhibits. -/
theorem c7_process_end_to_end (senv : ScraperEnv) (aenv : AnalyzerEnv)
    (req : HttpRequest) (f : UploadedFile)
    (hreq : req.resume = some f) (hf : f.filename ≠ "")
    (hd : pyStrip (req.domain.getD "") ≠ "") (hl : pyStrip (req.location.getD "") ≠ "") :
    (senv.searchResult = .ok { jobs_results := some [] } →
      ∃ m, process_resume senv aenv req = .ok (.badRequest m)) ∧
    (∀ (j : SerpJob) (t rt : String),
      senv.serpApiKey ≠ "" →
      senv.searchResult = .ok { jobs_results := some [j] } →
      aenv.geminiApiKey ≠ "" → aenv.configOutcome = .ok () →
      extract_text_from_pdf aenv.pdf = some rt → rt ≠ "" →
      aenv.gen 0 = .ok t → pyStrip t ≠ "" →
      ∃ m, process_resume senv aenv req =
          .ok (.success (pyStrip (req.domain.getD "")) (pyStrip (req.location.getD "")) [m]) ∧
        m.cover_letter = pyStrip t ∧ m.cover_letter ≠ "") := by
  constructor
  · intro hz
    refine ⟨"Could not find any jobs for the specified domain/location. Please try another one.", ?_⟩
    have hs : run_scraper_logic senv (pyStrip (req.domain.getD ""))
        (pyStrip (req.location.getD "")) = (false, []) := by
      unfold run_scraper_logic
      rw [hz]
      by_cases hk : senv.serpApiKey = "" <;> simp [hk]
    simp only [process_resume, hreq]
    rw [if_neg (by simp [hf, hd, hl]), hs]
    rfl
  · intro j t rt hk hs1 hgk hcfg hpdf hrt hgen htne
    have hscr : run_scraper_logic senv (pyStrip (req.domain.getD ""))
        (pyStrip (req.location.getD "")) = (true, [toScrapedRow j]) := by
      unfold run_scraper_logic
      rw [if_neg hk, hs1]
      simp [dedupByKey, dedupAux]
    have hana : run_analyzer_logic
        { aenv with csvOutcome := .ok [rowToCsv (toScrapedRow j)] } =
        .ok [mkMatchRecord (rowToCsv (toScrapedRow j))
          (toCsvField (toScrapedRow j).title) (toCsvField (toScrapedRow j).company)
          (pyStrip t)] := by
      unfold run_analyzer_logic
      dsimp only
      rw [if_neg hgk, hcfg, hpdf]
      dsimp only
      rw [if_neg hrt]
      have htake : List.take 5 [rowToCsv (toScrapedRow j)] = [rowToCsv (toScrapedRow j)] := rfl
      rw [htake]
      simp only [analyzeLoop, rowToCsv]
      simp only [hgen]
    refine ⟨mkMatchRecord (rowToCsv (toScrapedRow j))
      (toCsvField (toScrapedRow j).title) (toCsvField (toScrapedRow j).company)
      (pyStrip t), ?_, rfl, htne⟩
    simp only [process_resume, hreq]
    rw [if_neg (by simp [hf, hd, hl]), hscr]
    simp only [List.map_cons, List.map_nil]
    rw [hana]
    rfl

/-- C7 counterexample: with a valid request, one job result and a
generation stub returning the non-empty text consisting of one space,
the pipeline yields exactly one match record — but its cover letter is
the empty string, because the code strips the generated text. -/
theorem c7_counterexample :
    process_resume senvC7 aenvC7ce reqC7 =
      .ok (.success "software engineer" "Austin"
        [{ company := .str "N/A", title := .str "N/A", location := .str "N/A"
         , link := .str "#", cover_letter := "" }]) ∧
    aenvC7ce.gen 0 = .ok " " ∧ (" " : String) ≠ "" :=
  ⟨rfl, rfl, by decide⟩

/-- Witness for the amended C7 theorem: the zero-result stub produces a
400-style error and the one-job stub with substantive generated text
produces one match with a non-empty cover letter. -/
theorem c7_process_end_to_end_witness :
    reqC7.resume = some { filename := "resume.pdf" } ∧
    (∃ m, process_resume senvC7z aenvC7w reqC7 = .ok (.badRequest m)) ∧
    (∃ m, process_resume senvC7 aenvC7w reqC7 =
        .ok (.success "software engineer" "Austin" [m]) ∧
      m.cover_letter = pyStrip "Dear team, I am a great fit. Sincerely, John Doe" ∧
      m.cover_letter ≠ "") := by
  have hz := c7_process_end_to_end senvC7z aenvC7w reqC7 { filename := "resume.pdf" }
    rfl (by decide) (by decide) (by decide)
  have h := c7_process_end_to_end senvC7 aenvC7w reqC7 { filename := "resume.pdf" }
    rfl (by decide) (by decide) (by decide)
  refine ⟨rfl, hz.1 rfl, ?_⟩
  obtain ⟨m, hm1, hm2, hm3⟩ := h.2 jobC7
    "Dear team, I am a great fit. Sincerely, John Doe" "John Doe resume"
    (by decide) rfl (by decide) rfl rfl (by decide) rfl (by decide)
  exact ⟨m, hm1, hm2, hm3⟩

/-- C9 counterexample: the application registers exactly one route that
accepts a file upload, not two. -/
theorem c9_counterexample :
    (appRoutes.filter (fun r => r.acceptsFileUpload)).length ≠ 2 ∧
    (appRoutes.filter (fun r => r.acceptsFileUpload)).length = 1 :=
  ⟨by decide, by decide⟩

/-- C9 (amended): the application exposes exactly one inbound endpoint
accepting a file upload plus two form fields (POST /process, dynamic
JSON), and two further endpoints returning fixed JSON bodies, among them
the health-check GET /healthz. -/
theorem c9_routes_shape :
    (appRoutes.filter (fun r => r.acceptsFileUpload)).length = 1 ∧
    (∀ r ∈ appRoutes, r.acceptsFileUpload = true →
      (r.method = "POST" ∧ r.path = "/process" ∧ r.formFieldsRead = 2)) ∧
    (appRoutes.filter (fun r => r.returnsFixedJson)).length = 2 ∧
    (∃ r ∈ appRoutes, r.path = "/healthz" ∧ r.method = "GET" ∧
      r.returnsFixedJson = true) := by
  refine ⟨by decide, by decide, by decide, ?_⟩
  decide

/-- C10 (amended): for a successfully analyzed row whose apply_link
column is absent, holds the placeholder, or holds a present empty
string, the returned link is the fallback chain — share_link when it is
a non-empty string, else the Google Jobs URL from a non-empty string
job_id, else the placeholder.  An empty apply_link cell, however, is
read back by pandas as NaN, which is truthy and unequal to the
placeholder, so it bypasses the fallback and is returned as-is, which is
what the counterexample exhibits. -/
theorem c10_analyzer_link_fallback (aenv : AnalyzerEnv) (row : CsvRow)
    (tf cf : CsvField) (t rt : String)
    (hk : aenv.geminiApiKey ≠ "") (hcfg : aenv.configOutcome = .ok ())
    (hpdf : extract_text_from_pdf aenv.pdf = some rt) (hrt : rt ≠ "")
    (hcsv : aenv.csvOutcome = .ok [row])
    (htf : row.title = some tf) (hcf : row.company = some cf)
    (hgen : aenv.gen 0 = .ok t)
    (hal : row.apply_link = none ∨ row.apply_link = some (.str "#") ∨
      row.apply_link = some (.str "")) :
    ∃ m, run_analyzer_logic aenv = .ok [m] ∧ m.link = csvLinkFallback row ∧
      m.cover_letter = pyStrip t := by
  have hana : run_analyzer_logic aenv = .ok [mkMatchRecord row tf cf (pyStrip t)] := by
    unfold run_analyzer_logic
    rw [if_neg hk, hcfg]
    dsimp only
    rw [hpdf]
    dsimp only
    rw [if_neg hrt, hcsv]
    dsimp only
    have htake : List.take 5 [row] = [row] := rfl
    rw [htake]
    simp only [analyzeLoop, htf, hcf]
    simp only [hgen]
  refine ⟨mkMatchRecord row tf cf (pyStrip t), hana, ?_, rfl⟩
  unfold mkMatchRecord
  rcases hal with h | h | h <;>
    simp [pyGetOrEmpty, h, CsvField.truthy]

/-- C10 counterexample: a row with an empty apply_link cell and a
non-empty share_link; the produced match record carries NaN, not the
share link the claim requires. -/
theorem c10_counterexample :
    rowC10ce.apply_link = some .nan ∧
    rowC10ce.share_link = some (.str "https://sl.example/x") ∧
    (run_analyzer_logic aenvC10ce).toOption =
      some [{ company := .str "C", title := .str "T", location := .str ""
            , link := .nan, cover_letter := "cover text" }] ∧
    CsvField.nan ≠ CsvField.str "https://sl.example/x" :=
  ⟨rfl, rfl, rfl, by decide⟩

/-- Witness for the amended C10 theorem: a row holding the placeholder
apply link, an empty share_link cell and a non-empty job_id, whose match
record links to the Google Jobs URL. -/
theorem c10_analyzer_link_fallback_witness :
    rowC10w.apply_link = some (.str "#") ∧
    (∃ m, run_analyzer_logic aenvC10w = .ok [m] ∧ m.link = csvLinkFallback rowC10w ∧
      m.cover_letter = pyStrip "cover text") ∧
    csvLinkFallback rowC10w = .str (googleJobsSearchUrl "abc123") := by
  refine ⟨rfl, ?_, by decide⟩
  exact c10_analyzer_link_fallback aenvC10w rowC10w (.str "T") (.str "C")
    "cover text" "resume" (by decide) rfl rfl (by decide) rfl rfl rfl rfl
    (Or.inr (Or.inl rfl))

/-- Witness for the amended C9 theorem at the one upload route. -/
theorem c9_routes_shape_witness :
    (⟨"POST", "/process", true, 2, false⟩ : Route) ∈ appRoutes ∧
    ((⟨"POST", "/process", true, 2, false⟩ : Route).method = "POST" ∧
     (⟨"POST", "/process", true, 2, false⟩ : Route).path = "/process" ∧
     (⟨"POST", "/process", true, 2, false⟩ : Route).formFieldsRead = 2) :=
  ⟨by decide, c9_routes_shape.2.1 ⟨"POST", "/process", true, 2, false⟩
    (by decide) (by decide)⟩
